import Mathlib

/-!
Shallow embedding of the spec-kitty-runtime core: the schema value objects
(`schema.py`), the deterministic planner (`planner.py`), the significance
scoring engine (`significance.py`), the run engine state transitions
(`engine.py`) and the discovery fold (`discovery.py`).

Modelling conventions:
* Python `dict`s (insertion ordered) are association lists; `dictSet` mirrors
  the update-in-place-or-append semantics of `d[k] = v`, `dictDel` mirrors
  `del d[k]`.
* File contents are represented by their SHA-256 hex digest: the planner and
  engine only ever compare digests, never inspect bytes.
* Timestamps (`datetime.now`) are threaded as an opaque `now : String`
  parameter; the planner never reads them.
* Event emission (`run.events.jsonl` appends and emitter calls) is I/O not
  reflected in the returned state and is not modelled; the engine functions
  return the decision together with the snapshot that `_write_snapshot`
  persists.
* Pydantic string truthiness (`if s:` being false for `None` and `""`) is
  modelled by `truthy`.
-/

set_option maxHeartbeats 1000000

/-- Python `if s:` truthiness for `Optional[str]`. -/
def truthy : Option String → Bool
  | none => false
  | some s => !(s == "")

/-- Ordered-dict membership test (`k in d`). -/
def dictContains (d : List (String × α)) (k : String) : Bool :=
  d.any (fun p => p.1 == k)

/-- Ordered-dict lookup (`d[k]`, first binding wins as in a keyed dict). -/
def dictGet? (d : List (String × α)) (k : String) : Option α :=
  (d.find? (fun p => p.1 == k)).map Prod.snd

/-- Ordered-dict write `d[k] = v`: overwrite in place if present, else append. -/
def dictSet (d : List (String × α)) (k : String) (v : α) : List (String × α) :=
  if d.any (fun p => p.1 == k) then
    d.map (fun p => if p.1 == k then (k, v) else p)
  else
    d ++ [(k, v)]

/-- Ordered-dict delete `del d[k]`. -/
def dictDel (d : List (String × α)) (k : String) : List (String × α) :=
  d.filter (fun p => !(p.1 == k))

/-- Stable insertion used by `sortBy` (models Python `sorted`, which is stable). -/
def insertSortedBy (le : α → α → Bool) (x : α) : List α → List α
  | [] => [x]
  | y :: ys => if le x y then x :: y :: ys else y :: insertSortedBy le x ys

/-- Stable sort (models Python `sorted(l, key=...)`). -/
def sortBy (le : α → α → Bool) : List α → List α
  | [] => []
  | x :: xs => insertSortedBy le x (sortBy le xs)

/-! ## schema.py value objects -/

/-- Modelled from the spec: `RuntimeActorIdentity` lives in the
`spec_kitty_events.mission_next` module, which is not part of the sources;
the spec describes an actor object `(actor_id, actor_type)` with
`actor_type` one of human / llm / service. -/
structure ActorIdentity where
  actor_id : String
  actor_type : String
  deriving DecidableEq

structure AuditConfig where
  trigger_mode : String
  enforcement : String
  label : Option String := none
  deriving DecidableEq

structure SignificanceBlock where
  dimensions : List (String × Int)
  hard_triggers : List String := []
  deriving DecidableEq

structure AuditStep where
  id : String
  title : String
  description : String := ""
  audit : AuditConfig
  significance : Option SignificanceBlock := none
  depends_on : List String := []
  deriving DecidableEq

structure PromptStep where
  id : String
  title : String
  description : String := ""
  prompt : Option String := none
  prompt_template : Option String := none
  expected_output : Option String := none
  requires_inputs : List String := []
  depends_on : List String := []
  deriving DecidableEq

structure MissionMeta where
  key : String
  name : String
  version : String
  description : String := ""
  deriving DecidableEq

structure MissionTemplate where
  mission : MissionMeta
  steps : List PromptStep := []
  audit_steps : List AuditStep := []
  deriving DecidableEq

/-- Policy snapshot; `extras` values are modelled as opaque strings (no claim
inspects a structured extra). -/
structure MissionPolicySnapshot where
  strictness : String := "medium"
  default_route : String := "same_llm_context"
  extras : List (String × String) := []
  deriving DecidableEq

structure DecisionRequest where
  decision_id : String
  step_id : String
  question : String
  options : List String := []
  requested_by : ActorIdentity
  requested_at : String
  deriving DecidableEq

structure DecisionAnswer where
  decision_id : String
  answer : String
  answered_by : ActorIdentity
  answered_at : String
  deriving DecidableEq

structure StepContextBundle where
  run_id : String
  mission_key : String
  step_id : String
  step_title : String
  step_description : String
  expected_output : Option String := none
  policy_snapshot : MissionPolicySnapshot
  actor_context : List (String × String) := []
  deriving DecidableEq

structure NextDecision where
  kind : String
  run_id : String
  mission_key : String
  step_id : Option String := none
  step_title : Option String := none
  prompt : Option String := none
  context : Option StepContextBundle := none
  decision_id : Option String := none
  input_key : Option String := none
  question : Option String := none
  options : Option (List String) := none
  reason : Option String := none
  deriving DecidableEq

/-- Persisted run snapshot (`state.json`). `inputs` values are opaque strings,
`decisions` holds answer records, `pending_decisions` holds request records. -/
structure MissionRunSnapshot where
  run_id : String
  mission_key : String
  template_path : String
  template_hash : String
  policy_snapshot : MissionPolicySnapshot := {}
  completed_steps : List String := []
  issued_step_id : Option String := none
  inputs : List (String × String) := []
  decisions : List (String × DecisionAnswer) := []
  pending_decisions : List (String × DecisionRequest) := []
  blocked_reason : Option String := none
  deriving DecidableEq

/-! ## planner.py -/

inductive UnifiedStep where
  | prompt (step : PromptStep)
  | audit (step : AuditStep)
  deriving DecidableEq

/-- Eligibility filter of `_resolve_next_unified_step` for regular steps:
not completed, not the issued step, all `depends_on` completed. -/
def prompt_step_eligible (snapshot : MissionRunSnapshot) (step : PromptStep) : Bool :=
  !(snapshot.completed_steps.contains step.id) &&
  !(snapshot.issued_step_id == some step.id) &&
  step.depends_on.all (fun dep => snapshot.completed_steps.contains dep)

/-- Same filter for audit steps. -/
def audit_step_eligible (snapshot : MissionRunSnapshot) (step : AuditStep) : Bool :=
  !(snapshot.completed_steps.contains step.id) &&
  !(snapshot.issued_step_id == some step.id) &&
  step.depends_on.all (fun dep => snapshot.completed_steps.contains dep)

/-- `_resolve_next_unified_step`: first eligible regular step in template
order, else first eligible audit step, else none. -/
def resolve_next_unified_step (template : MissionTemplate)
    (snapshot : MissionRunSnapshot) : Option UnifiedStep :=
  match template.steps.find? (prompt_step_eligible snapshot) with
  | some step => some (UnifiedStep.prompt step)
  | none =>
    match template.audit_steps.find? (audit_step_eligible snapshot) with
    | some audit_step => some (UnifiedStep.audit audit_step)
    | none => none

/-- A step id counts as remaining for `_has_remaining_steps`: not completed
and not the currently issued step. -/
def step_remains (snapshot : MissionRunSnapshot) (sid : String) : Bool :=
  !(snapshot.completed_steps.contains sid) && !(some sid == snapshot.issued_step_id)

/-- `_has_remaining_steps`: any uncompleted step (excluding the issued one)
in either list. -/
def has_remaining_steps (template : MissionTemplate)
    (snapshot : MissionRunSnapshot) : Bool :=
  template.steps.any (fun s => step_remains snapshot s.id) ||
  template.audit_steps.any (fun a => step_remains snapshot a.id)

def drift_message : String :=
  "Template changed during active run. Migration required."

/-- `_check_template_drift`, with the live file abstracted to its SHA-256 hex
digest; the `not path.exists()` early return corresponds to calling
`plan_next` with `none`. -/
def check_template_drift (snapshot : MissionRunSnapshot)
    (live_template_hash : String) : Option String :=
  if live_template_hash != snapshot.template_hash then some drift_message else none

def no_eligible_steps_message : String :=
  "No eligible steps: remaining steps have unmet dependencies."

/-- Minimal-key pending decision: `sorted(pending_decisions.keys())[0]`
followed by the lookup, fused (keys of a dict are unique). Ties keep the
earlier binding. -/
def min_pending : List (String × DecisionRequest) → Option (String × DecisionRequest)
  | [] => none
  | p :: rest =>
    match min_pending rest with
    | none => some p
    | some q => some (if decide (q.1 < p.1) then q else p)

/-- `plan_next` (planner.py lines 122-275). -/
def plan_next (snapshot : MissionRunSnapshot) (mission_template : MissionTemplate)
    (policy_snapshot : MissionPolicySnapshot)
    (actor_context : List (String × String))
    (live_template_hash : Option String) : NextDecision :=
  if truthy snapshot.blocked_reason then
    { kind := "blocked", run_id := snapshot.run_id,
      mission_key := snapshot.mission_key, reason := snapshot.blocked_reason }
  else
    match (match live_template_hash with
           | some h => check_template_drift snapshot h
           | none => none) with
    | some drift_reason =>
      { kind := "blocked", run_id := snapshot.run_id,
        mission_key := snapshot.mission_key, reason := some drift_reason }
    | none =>
      match min_pending snapshot.pending_decisions with
      | some pending_pair =>
        let req := pending_pair.2
        let input_key : Option String :=
          if req.decision_id.startsWith "input:" then some (req.decision_id.drop 6)
          else none
        { kind := "decision_required", run_id := snapshot.run_id,
          mission_key := snapshot.mission_key, step_id := some req.step_id,
          decision_id := some req.decision_id, input_key := input_key,
          question := some req.question,
          options := if req.options == [] then none else some req.options,
          reason := some "pending_decision" }
      | none =>
        match resolve_next_unified_step mission_template snapshot with
        | none =>
          if has_remaining_steps mission_template snapshot then
            { kind := "blocked", run_id := snapshot.run_id,
              mission_key := snapshot.mission_key,
              reason := some no_eligible_steps_message }
          else
            { kind := "terminal", run_id := snapshot.run_id,
              mission_key := snapshot.mission_key,
              reason := some "All mission steps completed" }
        | some (UnifiedStep.audit step) =>
          if step.audit.enforcement == "blocking" then
            { kind := "decision_required", run_id := snapshot.run_id,
              mission_key := snapshot.mission_key, step_id := some step.id,
              step_title := some step.title,
              decision_id := some ("audit:" ++ step.id), input_key := none,
              question := some ("Audit checkpoint: " ++ step.title ++
                ". Approve to continue?"),
              options := some ["approve", "reject"] }
          else
            { kind := "step", run_id := snapshot.run_id,
              mission_key := snapshot.mission_key, step_id := some step.id,
              step_title := some step.title,
              prompt := some ("Execute audit step \x27" ++ step.id ++ "\x27: " ++
                step.title),
              context := some
                { run_id := snapshot.run_id, mission_key := snapshot.mission_key,
                  step_id := step.id, step_title := step.title,
                  step_description := step.description, expected_output := none,
                  policy_snapshot := policy_snapshot,
                  actor_context := actor_context } }
        | some (UnifiedStep.prompt step) =>
          match step.requires_inputs.filter (fun required =>
              !(dictContains snapshot.inputs required) &&
              !(dictContains snapshot.decisions required)) with
          | missing :: _ =>
            { kind := "decision_required", run_id := snapshot.run_id,
              mission_key := snapshot.mission_key, step_id := some step.id,
              decision_id := some ("input:" ++ missing), input_key := some missing,
              question := some ("Input required before step \x27" ++ step.id ++
                "\x27: provide value for \x27" ++ missing ++ "\x27."),
              reason := some "missing_required_input" }
          | [] =>
            { kind := "step", run_id := snapshot.run_id,
              mission_key := snapshot.mission_key, step_id := some step.id,
              step_title := some step.title,
              prompt :=
                some (match step.prompt with
                      | some p =>
                        if p == "" then
                          "Execute step \x27" ++ step.id ++ "\x27: " ++ step.title
                        else p
                      | none =>
                        "Execute step \x27" ++ step.id ++ "\x27: " ++ step.title),
              context := some
                { run_id := snapshot.run_id, mission_key := snapshot.mission_key,
                  step_id := step.id, step_title := step.title,
                  step_description := step.description,
                  expected_output := step.expected_output,
                  policy_snapshot := policy_snapshot,
                  actor_context := actor_context } }

/-! ## planner.py: serialize_decision

`serialize_decision` is `json.dumps(decision.model_dump(mode="json"),
sort_keys=True, separators=(",", ":"), default=str)`. The embedding renders
the canonical JSON text with keys in sorted order and no whitespace; string
escaping is modelled for the quote and backslash characters (the decision
fields produced by `plan_next` contain no control characters). -/

def jsonEscape (s : String) : String :=
  s.foldl
    (fun acc c =>
      if c = '\\' then acc ++ "\\\\"
      else if c = '"' then acc ++ "\\\"" else acc.push c)
    ""

def jsonStr (s : String) : String := "\"" ++ jsonEscape s ++ "\""

def jsonOptStr : Option String → String
  | none => "null"
  | some s => jsonStr s

def jsonStrList (l : List String) : String :=
  "[" ++ String.intercalate "," (l.map jsonStr) ++ "]"

def str_le (a b : String) : Bool := a == b || decide (a < b)

/-- Render an object from rendered-value pairs, keys sorted (`sort_keys=True`),
compact separators. -/
def jsonDict (pairs : List (String × String)) : String :=
  "\x7b" ++
    String.intercalate ","
      ((sortBy (fun p q => str_le p.1 q.1) pairs).map
        (fun p => jsonStr p.1 ++ ":" ++ p.2)) ++
  "\x7d"

def serialize_policy (p : MissionPolicySnapshot) : String :=
  jsonDict
    [("default_route", jsonStr p.default_route),
     ("extras", jsonDict (p.extras.map (fun q => (q.1, jsonStr q.2)))),
     ("strictness", jsonStr p.strictness)]

def serialize_context : Option StepContextBundle → String
  | none => "null"
  | some c =>
    jsonDict
      [("run_id", jsonStr c.run_id),
       ("mission_key", jsonStr c.mission_key),
       ("step_id", jsonStr c.step_id),
       ("step_title", jsonStr c.step_title),
       ("step_description", jsonStr c.step_description),
       ("expected_output", jsonOptStr c.expected_output),
       ("policy_snapshot", serialize_policy c.policy_snapshot),
       ("actor_context", jsonDict (c.actor_context.map (fun q => (q.1, jsonStr q.2))))]

/-- `serialize_decision`: canonical JSON used by the determinism tests. -/
def serialize_decision (decision : NextDecision) : String :=
  jsonDict
    [("kind", jsonStr decision.kind),
     ("run_id", jsonStr decision.run_id),
     ("mission_key", jsonStr decision.mission_key),
     ("step_id", jsonOptStr decision.step_id),
     ("step_title", jsonOptStr decision.step_title),
     ("prompt", jsonOptStr decision.prompt),
     ("context", serialize_context decision.context),
     ("decision_id", jsonOptStr decision.decision_id),
     ("input_key", jsonOptStr decision.input_key),
     ("question", jsonOptStr decision.question),
     ("options", match decision.options with
                 | none => "null"
                 | some l => jsonStrList l),
     ("reason", jsonOptStr decision.reason)]

/-! ## engine.py -/

def failed_message (sid : String) : String :=
  "Previous step \x27" ++ sid ++ "\x27 failed; manual intervention required."

def blocked_result_message (sid : String) : String :=
  "Previous step \x27" ++ sid ++ "\x27 reported blocked state."

/-- The issued-step transition at the top of `next_step` (engine.py lines
223-255): on `success` append the issued id to `completed_steps` (deduped), on
`failed` / `blocked` set `blocked_reason`; clear `issued_step_id`. Guarded by
Python truthiness of `issued_step_id`. -/
def apply_issued_transition (snapshot : MissionRunSnapshot)
    (result : String) : MissionRunSnapshot :=
  match snapshot.issued_step_id with
  | none => snapshot
  | some sid =>
    if sid == "" then snapshot
    else
      { snapshot with
        issued_step_id := none
        completed_steps :=
          if result == "success" then
            if snapshot.completed_steps.contains sid then snapshot.completed_steps
            else snapshot.completed_steps ++ [sid]
          else snapshot.completed_steps
        blocked_reason :=
          if result == "failed" then some (failed_message sid)
          else if result == "blocked" then some (blocked_result_message sid)
          else snapshot.blocked_reason }

structure NextStepOutcome where
  decision : NextDecision
  snapshot : MissionRunSnapshot
  deriving DecidableEq

/-- `next_step` (engine.py lines 185-329): apply the issued-step transition,
plan, then apply the decision to the snapshot that `_write_snapshot`
persists. The frozen-template load is the `template` argument; the live
template file is its digest (`none` when the path is missing). -/
def next_step (snapshot : MissionRunSnapshot) (template : MissionTemplate)
    (agent_id : String) (result : String)
    (policy_override : Option MissionPolicySnapshot)
    (actor_context : List (String × String))
    (live_template_hash : Option String) (now : String) : NextStepOutcome :=
  let effective_policy := policy_override.getD snapshot.policy_snapshot
  let s1 := apply_issued_transition snapshot result
  let decision :=
    plan_next s1 template effective_policy
      (dictSet actor_context "agent_id" agent_id) live_template_hash
  let issued2 :=
    if decision.kind == "step" && truthy decision.step_id then decision.step_id
    else s1.issued_step_id
  let pending2 :=
    if decision.kind == "decision_required" && truthy decision.decision_id then
      match decision.decision_id with
      | some did =>
        if dictContains s1.pending_decisions did then s1.pending_decisions
        else
          dictSet s1.pending_decisions did
            { decision_id := did, step_id := decision.step_id.getD "",
              question := decision.question.getD "",
              options := decision.options.getD [],
              requested_by := { actor_id := agent_id, actor_type := "llm" },
              requested_at := now }
      | none => s1.pending_decisions
    else s1.pending_decisions
  { decision := decision,
    snapshot :=
      { s1 with issued_step_id := issued2, pending_decisions := pending2 } }

def decision_not_found_message (decision_id run_id : String) : String :=
  "Decision \x27" ++ decision_id ++
    "\x27 not found in pending_decisions for run \x27" ++ run_id ++ "\x27"

/-- `provide_decision_answer` (engine.py lines 332-385). `.error` means the
call raised before `_write_snapshot`, so nothing was persisted; `.ok s` means
`s` was written to `state.json`. The `answer == ""` branch is the pydantic
`min_length=1` constraint on `DecisionAnswer.answer`. -/
def provide_decision_answer (snapshot : MissionRunSnapshot)
    (decision_id answer : String) (actor : ActorIdentity) (now : String) :
    Except String MissionRunSnapshot :=
  if !(dictContains snapshot.pending_decisions decision_id) then
    .error (decision_not_found_message decision_id snapshot.run_id)
  else if answer == "" then
    .error "DecisionAnswer.answer must have at least 1 character"
  else
    .ok
      { snapshot with
        decisions :=
          dictSet snapshot.decisions decision_id
            { decision_id := decision_id, answer := answer,
              answered_by := actor, answered_at := now }
        pending_decisions := dictDel snapshot.pending_decisions decision_id
        inputs :=
          if decision_id.startsWith "input:" then
            dictSet snapshot.inputs (decision_id.drop 6) answer
          else snapshot.inputs }

/-- The snapshot on disk after a `provide_decision_answer` call: unchanged
when the call raised (the raise precedes the only `_write_snapshot`). -/
def persisted_after_answer (snapshot : MissionRunSnapshot)
    (decision_id answer : String) (actor : ActorIdentity) (now : String) :
    MissionRunSnapshot :=
  match provide_decision_answer snapshot decision_id answer actor now with
  | .ok s2 => s2
  | .error _ => snapshot

/-! ## significance.py -/

def DIMENSION_NAMES : List String :=
  ["user_customer_impact", "architectural_system_impact",
   "data_security_compliance_impact", "operational_reliability_impact",
   "financial_commercial_impact", "cross_team_blast_radius"]

structure SignificanceDimension where
  name : String
  score : Int
  description : String := ""
  deriving DecidableEq

structure RoutingBand where
  name : String
  min_score : Int
  max_score : Int
  deriving DecidableEq

def DEFAULT_BANDS : List RoutingBand :=
  [{ name := "low", min_score := 0, max_score := 6 },
   { name := "medium", min_score := 7, max_score := 11 },
   { name := "high", min_score := 12, max_score := 18 }]

structure HardTriggerClass where
  class_id : String
  description : String
  deriving DecidableEq

def HARD_TRIGGER_REGISTRY : List (String × HardTriggerClass) :=
  [("production_data_destructive",
    { class_id := "production_data_destructive",
      description := "Production data-destructive or schema-impacting changes" }),
   ("security_privacy_access_control",
    { class_id := "security_privacy_access_control",
      description := "Security/privacy/access-control changes" }),
   ("legal_compliance_regulatory",
    { class_id := "legal_compliance_regulatory",
      description := "Legal/compliance/regulatory impact" }),
   ("billing_financial_commitment",
    { class_id := "billing_financial_commitment",
      description := "Billing/financial commitment changes" }),
   ("architecture_foundation",
    { class_id := "architecture_foundation",
      description := "Architecture-foundation changes (language, framework, runtime, datastore, infrastructure)" })]

/-- Custom band cutoffs. `validate_band_cutoffs` first rejects any dict whose
key set is not exactly low / medium / high; dicts that pass that check are in
bijection with this structure, so the structure embeds post-key-check dicts
and the key-set check itself is discharged by typing. Each pair is
`(min, max)`. -/
structure BandCutoffs where
  low : Int × Int
  medium : Int × Int
  high : Int × Int
  deriving DecidableEq

def cutoff_items (c : BandCutoffs) : List (String × Int × Int) :=
  [("low", c.low), ("medium", c.medium), ("high", c.high)]

/-- `sorted(cutoffs.items(), key=lambda item: item[1][0])`. -/
def sorted_by_lo (items : List (String × Int × Int)) : List (String × Int × Int) :=
  sortBy (fun a b => decide (a.2.1 ≤ b.2.1)) items

/-- Contiguity walk of `validate_band_cutoffs`: no gap
(`next_lo > prev_hi + 1`) and no overlap (`next_lo ≤ prev_hi`) between
adjacent sorted bands. -/
def cutoff_chain_ok : List (String × Int × Int) → Bool
  | a :: b :: rest =>
    decide (b.2.1 ≤ a.2.2 + 1) && decide (a.2.2 < b.2.1) &&
      cutoff_chain_ok (b :: rest)
  | _ => true

/-- Checks of `validate_band_cutoffs` on the lo-sorted band list: per-band
`min ≤ max`, first band starts at 0, last ends at 18, contiguous with no
overlaps. -/
def validate_sorted_cutoffs (s : List (String × Int × Int)) : Bool :=
  s.all (fun b => decide (b.2.1 ≤ b.2.2)) &&
  (match s.head? with
   | some f => decide (f.2.1 = 0)
   | none => false) &&
  (match s.getLast? with
   | some l => decide (l.2.2 = 18)
   | none => false) &&
  cutoff_chain_ok s

/-- `validate_band_cutoffs` after the key-set check (see `BandCutoffs`);
`false` models the raised `ValueError`. -/
def validate_band_cutoffs (c : BandCutoffs) : Bool :=
  validate_sorted_cutoffs (sorted_by_lo (cutoff_items c))

/-- `make_routing_bands`: defaults when no cutoffs, else validate and build
the three bands sorted by `min_score`. -/
def make_routing_bands : Option BandCutoffs → Except String (List RoutingBand)
  | none => .ok DEFAULT_BANDS
  | some c =>
    if validate_band_cutoffs c then
      .ok (sortBy (fun a b => decide (a.min_score ≤ b.min_score))
        [{ name := "low", min_score := c.low.1, max_score := c.low.2 },
         { name := "medium", min_score := c.medium.1, max_score := c.medium.2 },
         { name := "high", min_score := c.high.1, max_score := c.high.2 }])
    else .error "invalid band cutoffs"

/-- `resolve_hard_triggers`: unknown class ids raise. -/
def resolve_hard_triggers : List String → Except String (List HardTriggerClass)
  | [] => .ok []
  | cid :: rest =>
    match dictGet? HARD_TRIGGER_REGISTRY cid with
    | none => .error ("Unknown hard-trigger class: " ++ cid)
    | some t =>
      match resolve_hard_triggers rest with
      | .error e => .error e
      | .ok ts => .ok (t :: ts)

/-- `validate_dimension_scores`: key set equals the six fixed names, each
score in 0-3. -/
def validate_dimension_scores (scores : List (String × Int)) : Bool :=
  DIMENSION_NAMES.all (fun d => dictContains scores d) &&
  scores.all (fun p => DIMENSION_NAMES.contains p.1) &&
  scores.all (fun p => decide (0 ≤ p.2) && decide (p.2 ≤ 3))

structure SignificanceScore where
  dimensions : List SignificanceDimension
  composite : Int
  band : RoutingBand
  hard_trigger_classes : List HardTriggerClass
  effective_band : RoutingBand
  deriving DecidableEq

/-- `evaluate_significance` (significance.py lines 349-413): validate, sort
dimensions by name, sum the composite, resolve the numeric band, resolve
triggers, force the high band when triggers are present. The pydantic
re-validation inside the `SignificanceScore` constructor always passes on the
values built here (that is exactly what `evaluate_significance_invariants`
proves), so it is not repeated. -/
def evaluate_significance (dimension_scores : List (String × Int))
    (hard_trigger_classes : List String) (band_cutoffs : Option BandCutoffs) :
    Except String SignificanceScore :=
  if !(validate_dimension_scores dimension_scores) then
    .error "invalid dimension scores"
  else
    let dims :=
      sortBy (fun a b => str_le a.name b.name)
        (dimension_scores.map
          (fun p => ({ name := p.1, score := p.2 } : SignificanceDimension)))
    let composite := (dimension_scores.map Prod.snd).sum
    match make_routing_bands band_cutoffs with
    | .error e => .error e
    | .ok bands =>
      match bands.find?
          (fun b => decide (b.min_score ≤ composite) &&
                    decide (composite ≤ b.max_score)) with
      | none => .error "composite score does not fall within any band"
      | some band =>
        match resolve_hard_triggers hard_trigger_classes with
        | .error e => .error e
        | .ok triggers =>
          match (if triggers.isEmpty then some band
                 else bands.find? (fun b => b.name == "high")) with
          | none => .error "no high band"
          | some effective_band =>
            .ok { dimensions := dims, composite := composite, band := band,
                  hard_trigger_classes := triggers,
                  effective_band := effective_band }

/-! ## schema.py: template loading

`load_mission_template_file` is embedded from the point where the YAML file
has been read and parsed into a mapping (file I/O, YAML parsing and the
top-level shorthand synthesis of the `mission` block are outside the
embedding): `MissionTemplate.model_validate` runs exactly the per-field
pydantic constraints (non-empty ids / titles / meta strings, enum literals,
significance block validity) — the source has no step-id uniqueness check —
and the loader then rejects templates with no steps at all. -/

def mission_meta_valid (m : MissionMeta) : Bool :=
  !(m.key == "") && !(m.name == "") && !(m.version == "")

def prompt_step_valid (s : PromptStep) : Bool :=
  !(s.id == "") && !(s.title == "")

def audit_config_valid (c : AuditConfig) : Bool :=
  (c.trigger_mode == "manual" || c.trigger_mode == "post_merge" ||
   c.trigger_mode == "both") &&
  (c.enforcement == "advisory" || c.enforcement == "blocking")

def significance_block_valid (b : SignificanceBlock) : Bool :=
  validate_dimension_scores b.dimensions &&
  b.hard_triggers.all (fun t => dictContains HARD_TRIGGER_REGISTRY t)

def audit_step_valid (a : AuditStep) : Bool :=
  !(a.id == "") && !(a.title == "") && audit_config_valid a.audit &&
  (match a.significance with
   | none => true
   | some b => significance_block_valid b)

/-- `load_mission_template_file` over the parsed mapping. -/
def load_mission_template_file (raw : MissionTemplate) :
    Except String MissionTemplate :=
  if !(mission_meta_valid raw.mission) then .error "invalid mission meta"
  else if !(raw.steps.all prompt_step_valid) then .error "invalid step"
  else if !(raw.audit_steps.all audit_step_valid) then .error "invalid audit step"
  else if raw.steps.isEmpty && raw.audit_steps.isEmpty then
    .error "Mission template has no steps"
  else .ok raw

/-! ## discovery.py -/

structure DiscoveredMission where
  key : String
  path : String
  origin : String
  precedence_tier : String
  selected : Bool
  deriving DecidableEq

structure DiscoveryWarning where
  path : String
  tier : String
  origin : String
  error : String
  deriving DecidableEq

structure DiscoveryResult where
  missions : List DiscoveredMission
  warnings : List DiscoveryWarning
  deriving DecidableEq

deriving instance DecidableEq for Except

/-- One scanned `mission.yaml` candidate, in tier walk order: the tier and
origin labels of `_build_tiers`, and the outcome of
`load_mission_template_file` at that path (`.ok` carries the loaded
`template.mission.key`). The filesystem walk itself
(`_build_tiers` / `_scan_root`) is I/O; the embedding takes its ordered
outcomes as input. -/
structure WalkItem where
  path : String
  tier : String
  origin : String
  load_result : Except String String
  deriving DecidableEq

/-- The accumulation loop of `discover_missions_with_warnings`
(discovery.py lines 219-252), with `seen` playing `selected_by_key`. -/
def discover_go (seen : List String) :
    List WalkItem → List DiscoveredMission × List DiscoveryWarning
  | [] => ([], [])
  | item :: rest =>
    match item.load_result with
    | .error e =>
      let out := discover_go seen rest
      (out.1,
       { path := item.path, tier := item.tier, origin := item.origin,
         error := e } :: out.2)
    | .ok key =>
      let selected := !(seen.contains key)
      let out := discover_go (if selected then key :: seen else seen) rest
      ({ key := key, path := item.path, origin := item.origin,
         precedence_tier := item.tier, selected := selected } :: out.1,
       out.2)

/-- `discover_missions_with_warnings` over the walked candidates. -/
def discover_missions_with_warnings (items : List WalkItem) : DiscoveryResult :=
  { missions := (discover_go [] items).1, warnings := (discover_go [] items).2 }

/-- The key of a successfully loaded walk item. -/
def walk_ok_key (item : WalkItem) : Option String :=
  match item.load_result with
  | .ok key => some key
  | .error _ => none

/-! ## Concrete fixtures -/

def fixture_policy : MissionPolicySnapshot := {}

def c1dims : List (String × Int) :=
  [("user_customer_impact", 2), ("architectural_system_impact", 2),
   ("data_security_compliance_impact", 2), ("operational_reliability_impact", 2),
   ("financial_commercial_impact", 0), ("cross_team_blast_radius", 0)]

def c1audit : AuditStep :=
  { id := "a1", title := "Security review",
    audit := { trigger_mode := "manual", enforcement := "blocking" },
    significance := some { dimensions := c1dims } }

def c1tmpl : MissionTemplate :=
  { mission := { key := "m", name := "m", version := "1.0.0" },
    audit_steps := [c1audit] }

def c1snap : MissionRunSnapshot :=
  { run_id := "r1", mission_key := "m", template_path := "p",
    template_hash := "h" }

def fixture_request : DecisionRequest :=
  { decision_id := "audit:a1", step_id := "a1",
    question := "Audit checkpoint: Security review. Approve to continue?",
    options := ["approve", "reject"],
    requested_by := { actor_id := "agent", actor_type := "llm" },
    requested_at := "t0" }

def c2snap : MissionRunSnapshot :=
  { run_id := "r2", mission_key := "m", template_path := "p",
    template_hash := "h", pending_decisions := [("audit:a1", fixture_request)] }

def fixture_actor : ActorIdentity :=
  { actor_id := "security-lead", actor_type := "human" }

def c3tmpl : MissionTemplate :=
  { mission := { key := "m", name := "m", version := "1.0.0" },
    steps := [{ id := "S1", title := "Step one" }, { id := "S2", title := "Step two" }] }

def c3snap : MissionRunSnapshot :=
  { run_id := "r3", mission_key := "m", template_path := "p",
    template_hash := "h1", issued_step_id := some "S1" }

def c4tmpl : MissionTemplate :=
  { mission := { key := "m", name := "m", version := "1.0.0" },
    steps := [{ id := "s1", title := "First" }, { id := "s1", title := "Second" }] }

def c5tmpl : MissionTemplate :=
  { mission := { key := "m", name := "m", version := "1.0.0" },
    steps := [{ id := "s1", title := "Only step" }] }

def c5snap : MissionRunSnapshot :=
  { run_id := "r5", mission_key := "m", template_path := "p",
    template_hash := "h", issued_step_id := some "s1" }

def c9items : List WalkItem :=
  [{ path := "/a/mission.yaml", tier := "explicit", origin := "explicit_paths",
     load_result := .ok "software-dev" },
   { path := "/b/mission.yaml", tier := "project_override", origin := "ovr",
     load_result := .error "bad yaml" },
   { path := "/c/mission.yaml", tier := "builtin", origin := "builtin_roots",
     load_result := .ok "software-dev" },
   { path := "/d/mission.yaml", tier := "builtin", origin := "builtin_roots",
     load_result := .ok "docs" }]

def c10snap : MissionRunSnapshot :=
  { run_id := "r10", mission_key := "m", template_path := "p",
    template_hash := "h",
    blocked_reason := some "Previous step \x27S1\x27 failed; manual intervention required." }

def c9first : DiscoveredMission :=
  { key := "software-dev", path := "/a/mission.yaml",
    origin := "explicit_paths", precedence_tier := "explicit",
    selected := true }

def c9shadow : DiscoveredMission :=
  { key := "software-dev", path := "/c/mission.yaml",
    origin := "builtin_roots", precedence_tier := "builtin",
    selected := false }


/-! ## Supporting lemmas -/

theorem insertSortedBy_perm (le : α → α → Bool) (x : α) (l : List α) :
    List.Perm (insertSortedBy le x l) (x :: l) := by
  induction l with
  | nil => simp [insertSortedBy]
  | cons y ys ih =>
    simp only [insertSortedBy]
    split
    · exact List.Perm.refl _
    · exact (ih.cons y).trans (List.Perm.swap x y ys)

theorem sortBy_perm (le : α → α → Bool) (l : List α) : List.Perm (sortBy le l) l := by
  induction l with
  | nil => simp [sortBy]
  | cons x xs ih =>
    exact (insertSortedBy_perm le x (sortBy le xs)).trans (ih.cons x)

theorem sum_bounds (l : List Int) (h : ∀ x ∈ l, 0 ≤ x ∧ x ≤ 3) :
    0 ≤ l.sum ∧ l.sum ≤ 3 * (l.length : Int) := by
  induction l with
  | nil => simp
  | cons x xs ih =>
    have hx := h x (by simp)
    have hxs := ih (fun y hy => h y (by simp [hy]))
    simp only [List.sum_cons, List.length_cons]
    push_cast
    constructor <;> linarith [hxs.1, hxs.2, hx.1, hx.2]

theorem cutoffs_cover (c : BandCutoffs) (h : validate_band_cutoffs c = true)
    (x : Int) (h0 : 0 ≤ x) (h18 : x ≤ 18) :
    (c.low.1 ≤ x ∧ x ≤ c.low.2) ∨ (c.medium.1 ≤ x ∧ x ≤ c.medium.2) ∨
    (c.high.1 ≤ x ∧ x ≤ c.high.2) := by
  obtain ⟨⟨l1, l2⟩, ⟨m1, m2⟩, ⟨h1, h2⟩⟩ := c
  by_cases c1 : m1 ≤ h1 <;> by_cases c2 : l1 ≤ m1 <;> by_cases c3 : l1 ≤ h1 <;>
    simp_all [validate_band_cutoffs, cutoff_items, sorted_by_lo, sortBy,
      insertSortedBy, validate_sorted_cutoffs, cutoff_chain_ok] <;>
    omega

theorem dictGet?_isSome_of_contains (d : List (String × α)) (k : String)
    (h : dictContains d k = true) : ∃ v, dictGet? d k = some v := by
  unfold dictContains at h
  unfold dictGet?
  rcases List.any_eq_true.mp h with ⟨p, hp, hpk⟩
  cases hfind : d.find? (fun p => p.1 == k) with
  | none => exact absurd hpk (by simpa using List.find?_eq_none.mp hfind p hp)
  | some q => exact ⟨q.2, by simp⟩

theorem resolve_hard_triggers_ok (triggers : List String)
    (ht : ∀ cid ∈ triggers, dictContains HARD_TRIGGER_REGISTRY cid = true) :
    ∃ ts, resolve_hard_triggers triggers = .ok ts ∧ (ts = [] ↔ triggers = []) := by
  induction triggers with
  | nil => exact ⟨[], rfl, by simp⟩
  | cons c cs ih =>
    obtain ⟨v, hv⟩ := dictGet?_isSome_of_contains _ _ (ht c (by simp))
    obtain ⟨ts, hts, hemp⟩ := ih (fun cid hc => ht cid (by simp [hc]))
    exact ⟨v :: ts, by simp [resolve_hard_triggers, hv, hts], by simp⟩

theorem find?_of_exists {p : α → Bool} {l : List α} (h : ∃ x ∈ l, p x = true) :
    ∃ y, l.find? p = some y ∧ p y = true := by
  obtain ⟨x, hx, hpx⟩ := h
  cases hfind : l.find? p with
  | none => exact absurd hpx (by simpa using List.find?_eq_none.mp hfind x hx)
  | some y => exact ⟨y, rfl, List.find?_some hfind⟩

theorem make_routing_bands_ok (cutoffs : Option BandCutoffs)
    (hc : ∀ c, cutoffs = some c → validate_band_cutoffs c = true) :
    ∃ bands, make_routing_bands cutoffs = .ok bands ∧
      (∃ b ∈ bands, b.name = "high") ∧
      ∀ x : Int, 0 ≤ x → x ≤ 18 →
        ∃ b ∈ bands, b.min_score ≤ x ∧ x ≤ b.max_score := by
  cases cutoffs with
  | none =>
    refine ⟨DEFAULT_BANDS, rfl, ⟨⟨"high", 12, 18⟩, by decide, rfl⟩, ?_⟩
    intro x hx0 hx18
    by_cases hx6 : x ≤ 6
    · exact ⟨⟨"low", 0, 6⟩, by decide, by simpa using hx0, by simpa using hx6⟩
    · by_cases hx11 : x ≤ 11
      · exact ⟨⟨"medium", 7, 11⟩, by decide, by simp; omega, by simpa using hx11⟩
      · exact ⟨⟨"high", 12, 18⟩, by decide, by simp; omega, by simpa using hx18⟩
  | some c =>
    have hval := hc c rfl
    have hperm := sortBy_perm (fun a b : RoutingBand => decide (a.min_score ≤ b.min_score))
      [⟨"low", c.low.1, c.low.2⟩, ⟨"medium", c.medium.1, c.medium.2⟩,
       ⟨"high", c.high.1, c.high.2⟩]
    refine ⟨sortBy (fun a b : RoutingBand => decide (a.min_score ≤ b.min_score))
      [⟨"low", c.low.1, c.low.2⟩, ⟨"medium", c.medium.1, c.medium.2⟩,
       ⟨"high", c.high.1, c.high.2⟩], by simp [make_routing_bands, hval], ?_, ?_⟩
    · exact ⟨⟨"high", c.high.1, c.high.2⟩, hperm.mem_iff.mpr (by simp), rfl⟩
    · intro x hx0 hx18
      rcases cutoffs_cover c hval x hx0 hx18 with hcv | hcv | hcv
      · exact ⟨⟨"low", c.low.1, c.low.2⟩, hperm.mem_iff.mpr (by simp), hcv.1, hcv.2⟩
      · exact ⟨⟨"medium", c.medium.1, c.medium.2⟩, hperm.mem_iff.mpr (by simp),
          hcv.1, hcv.2⟩
      · exact ⟨⟨"high", c.high.1, c.high.2⟩, hperm.mem_iff.mpr (by simp),
          hcv.1, hcv.2⟩

/-- C7: for every valid input to `evaluate_significance` (the six fixed
dimension names with scores in 0-3, known hard-trigger class ids, valid or
absent band cutoffs), evaluation succeeds and the returned score has
`composite` equal to the sum of the six dimension scores and effective band
`high` exactly when the numeric band is `high` or the hard-trigger list is
non-empty. -/
theorem evaluate_significance_invariants
    (scores : List (String × Int)) (triggers : List String)
    (cutoffs : Option BandCutoffs)
    (hnd : (scores.map Prod.fst).Nodup)
    (hv : validate_dimension_scores scores = true)
    (ht : ∀ cid ∈ triggers, dictContains HARD_TRIGGER_REGISTRY cid = true)
    (hc : ∀ c, cutoffs = some c → validate_band_cutoffs c = true) :
    ∃ sc, evaluate_significance scores triggers cutoffs = .ok sc ∧
      sc.composite = (sc.dimensions.map SignificanceDimension.score).sum ∧
      (sc.effective_band.name = "high" ↔
        (sc.band.name = "high" ∨ sc.hard_trigger_classes ≠ [])) := by
  have hvsplit := hv
  simp only [validate_dimension_scores, Bool.and_eq_true, List.all_eq_true,
    List.any_eq_true, dictContains, decide_eq_true_eq, Bool.and_eq_true] at hvsplit
  obtain ⟨⟨hcov, hsub⟩, hrange⟩ := hvsplit
  -- key multiset equals the six fixed names
  have hperm_names : List.Perm (scores.map Prod.fst) DIMENSION_NAMES := by
    rw [List.perm_ext_iff_of_nodup hnd (by decide)]
    intro a
    constructor
    · intro ha
      obtain ⟨p, hp, rfl⟩ := List.mem_map.mp ha
      simpa using hsub p hp
    · intro ha
      obtain ⟨p, hp, hpk⟩ := hcov a ha
      exact List.mem_map.mpr ⟨p, hp, by simpa using hpk⟩
  have hlen : scores.length = 6 := by
    have h1 := hperm_names.length_eq
    simpa using h1
  have hsum := sum_bounds (scores.map Prod.snd)
    (by
      intro x hx
      obtain ⟨p, hp, rfl⟩ := List.mem_map.mp hx
      have := hrange p hp
      exact ⟨this.1, this.2⟩)
  have hcomp0 : 0 ≤ (scores.map Prod.snd).sum := hsum.1
  have hcomp18 : (scores.map Prod.snd).sum ≤ 18 := by
    have h2 := hsum.2
    rw [List.length_map, hlen] at h2
    omega
  obtain ⟨bands, hbands, hhigh, hcover⟩ := make_routing_bands_ok cutoffs hc
  obtain ⟨band, hfind, hpred⟩ :=
    @find?_of_exists RoutingBand
      (fun b => decide (b.min_score ≤ (scores.map Prod.snd).sum) &&
               decide ((scores.map Prod.snd).sum ≤ b.max_score)) bands
      (by
        obtain ⟨b, hbmem, hb1, hb2⟩ := hcover _ hcomp0 hcomp18
        exact ⟨b, hbmem, by simp [hb1, hb2]⟩)
  obtain ⟨ts, hts, hempty⟩ := resolve_hard_triggers_ok triggers ht
  -- the composite stored in the record equals the sum over the sorted dims
  have hdimsum :
      ((sortBy (fun a b => str_le a.name b.name)
          (scores.map (fun p =>
            ({ name := p.1, score := p.2 } : SignificanceDimension)))).map
        SignificanceDimension.score).sum = (scores.map Prod.snd).sum := by
    have hp := (sortBy_perm (fun a b => str_le a.name b.name)
      (scores.map (fun p =>
        ({ name := p.1, score := p.2 } : SignificanceDimension)))).map
      SignificanceDimension.score
    rw [hp.sum_eq]
    simp only [List.map_map]
    rfl
  cases hts_nil : ts with
  | nil =>
    subst hts_nil
    refine ⟨{ dimensions := sortBy (fun a b => str_le a.name b.name)
                (scores.map (fun p =>
                  ({ name := p.1, score := p.2 } : SignificanceDimension))),
              composite := (scores.map Prod.snd).sum, band := band,
              hard_trigger_classes := [], effective_band := band }, ?_, ?_, ?_⟩
    · simp only [evaluate_significance, hv, Bool.not_true, Bool.false_eq_true,
        if_false, hbands, hfind, hts, List.isEmpty_nil, if_true]
    · exact hdimsum.symm
    · simp
  | cons t0 ts0 =>
    obtain ⟨eb, hfeb, hpeb⟩ :=
      @find?_of_exists RoutingBand (fun b => b.name == "high") bands
        (by
          obtain ⟨b, hbmem, hbname⟩ := hhigh
          exact ⟨b, hbmem, by simp [hbname]⟩)
    subst hts_nil
    refine ⟨{ dimensions := sortBy (fun a b => str_le a.name b.name)
                (scores.map (fun p =>
                  ({ name := p.1, score := p.2 } : SignificanceDimension))),
              composite := (scores.map Prod.snd).sum, band := band,
              hard_trigger_classes := t0 :: ts0, effective_band := eb }, ?_, ?_, ?_⟩
    · simp only [evaluate_significance, hv, Bool.not_true, Bool.false_eq_true,
        if_false, hbands, hfind, hts, List.isEmpty_cons, hfeb]
    · exact hdimsum.symm
    · have heb : eb.name = "high" := by simpa using hpeb
      simp [heb]

/-! ## Claim theorems -/

/-- C1 (code evidence): on a fresh run whose only step is a blocking audit
step carrying a significance block that evaluates to effective band `medium`
(composite 8), `plan_next` still emits the hard-gate options
`approve` / `reject` — the planner never consults the significance block. -/
theorem audit_gate_ignores_significance_medium :
    (evaluate_significance c1dims [] none).toOption.map
      (fun sc => sc.effective_band.name) = some "medium" ∧
    (plan_next c1snap c1tmpl fixture_policy [] none).kind = "decision_required" ∧
    (plan_next c1snap c1tmpl fixture_policy [] none).decision_id = some "audit:a1" ∧
    (plan_next c1snap c1tmpl fixture_policy [] none).options =
      some ["approve", "reject"] ∧
    (plan_next c1snap c1tmpl fixture_policy [] none).options ≠
      some ["decide_solo", "open_stand_up", "defer"] := by
  decide

/-- C2 (code evidence): answering the pending hard-gate audit decision
`audit:a1` with `approve` persists a snapshot whose `completed_steps` is still
empty, and answering with `reject` leaves `blocked_reason` unset: the engine
only records the answer and clears the pending entry. -/
theorem audit_answer_no_state_transition :
    (provide_decision_answer c2snap "audit:a1" "approve" fixture_actor
        "t1").toOption.isSome = true ∧
    (persisted_after_answer c2snap "audit:a1" "approve" fixture_actor
        "t1").completed_steps = [] ∧
    (provide_decision_answer c2snap "audit:a1" "reject" fixture_actor
        "t1").toOption.isSome = true ∧
    (persisted_after_answer c2snap "audit:a1" "reject" fixture_actor
        "t1").blocked_reason = none := by
  decide

/-- C3 counterexample: with step `S1` issued on entry and a drifted live
template, `next_step` returns the drift `Blocked` decision but persists
`completed_steps = ["S1"]`, mutating it from `[]`. -/
theorem drift_mutates_completed_steps_cex :
    (next_step c3snap c3tmpl "codex" "success" none [] (some "h2") "t").decision.kind
      = "blocked" ∧
    (next_step c3snap c3tmpl "codex" "success" none [] (some "h2") "t").decision.reason
      = some drift_message ∧
    c3snap.completed_steps = [] ∧
    (next_step c3snap c3tmpl "codex" "success" none [] (some "h2") "t").snapshot.completed_steps
      = ["S1"] := by
  decide

/-- C3 amended: on a drifted live template (and `result="success"`),
`next_step` returns `Blocked` with the exact drift reason, and the persisted
`completed_steps` is the prior value extended by the entry-issued step id
(when one was issued, non-empty and not already completed); it is unchanged
exactly when no step was issued on entry. -/
theorem drift_blocks_with_transitioned_completed
    (snapshot : MissionRunSnapshot) (template : MissionTemplate)
    (agent_id : String) (po : Option MissionPolicySnapshot)
    (ac : List (String × String)) (live_hash now : String)
    (hb : snapshot.blocked_reason = none)
    (hd : live_hash ≠ snapshot.template_hash) :
    (next_step snapshot template agent_id "success" po ac (some live_hash)
        now).decision.kind = "blocked" ∧
    (next_step snapshot template agent_id "success" po ac (some live_hash)
        now).decision.reason = some drift_message ∧
    (next_step snapshot template agent_id "success" po ac (some live_hash)
        now).snapshot.completed_steps =
      (match snapshot.issued_step_id with
       | some sid =>
         if sid == "" then snapshot.completed_steps
         else if snapshot.completed_steps.contains sid then
           snapshot.completed_steps
         else snapshot.completed_steps ++ [sid]
       | none => snapshot.completed_steps) := by
  cases hiss : snapshot.issued_step_id with
  | none =>
    simp [next_step, apply_issued_transition, hiss, plan_next, truthy, hb,
      check_template_drift, hd]
  | some sid =>
    by_cases hsid : sid == ""
    · simp [next_step, apply_issued_transition, hiss, hsid, plan_next, truthy,
        hb, check_template_drift, hd]
    · by_cases hmem : snapshot.completed_steps.contains sid
      · simp [next_step, apply_issued_transition, hiss, hsid, hmem, plan_next,
          truthy, hb, check_template_drift, hd]
      · simp [next_step, apply_issued_transition, hiss, hsid, hmem, plan_next,
          truthy, hb, check_template_drift, hd]

/-- C3 amended witness at the concrete drift fixture. -/
theorem drift_blocks_witness :
    c3snap.blocked_reason = none ∧ "h2" ≠ c3snap.template_hash ∧
    ((next_step c3snap c3tmpl "codex" "success" none [] (some "h2")
        "t").decision.kind = "blocked" ∧
     (next_step c3snap c3tmpl "codex" "success" none [] (some "h2")
        "t").decision.reason = some drift_message ∧
     (next_step c3snap c3tmpl "codex" "success" none [] (some "h2")
        "t").snapshot.completed_steps =
       (match c3snap.issued_step_id with
        | some sid =>
          if sid == "" then c3snap.completed_steps
          else if c3snap.completed_steps.contains sid then c3snap.completed_steps
          else c3snap.completed_steps ++ [sid]
        | none => c3snap.completed_steps)) :=
  ⟨by decide, by decide,
   drift_blocks_with_transitioned_completed c3snap c3tmpl "codex" none [] "h2" "t"
     (by decide) (by decide)⟩

/-- C4 counterexample: a template whose two steps share the id `s1` passes
`load_mission_template_file` — the loader performs no uniqueness check. -/
theorem loader_accepts_duplicate_ids_cex :
    load_mission_template_file c4tmpl = .ok c4tmpl ∧
    ¬ ((c4tmpl.steps.map PromptStep.id) ++
        (c4tmpl.audit_steps.map AuditStep.id)).Nodup := by
  decide

/-- C4 amended: the loader accepts any template that passes the per-field
pydantic constraints and has at least one step, even when step ids repeat
across `steps ∪ audit_steps`; duplicate ids are never a load error. -/
theorem loader_ignores_duplicate_ids (raw : MissionTemplate)
    (hm : mission_meta_valid raw.mission = true)
    (hs : raw.steps.all prompt_step_valid = true)
    (ha : raw.audit_steps.all audit_step_valid = true)
    (hne : raw.steps.isEmpty = false)
    (hdup : ¬ ((raw.steps.map PromptStep.id) ++
        (raw.audit_steps.map AuditStep.id)).Nodup) :
    load_mission_template_file raw = .ok raw := by
  simp [load_mission_template_file, hm, hs, ha, hne]

/-- C4 amended witness at the duplicate-id fixture. -/
theorem loader_ignores_duplicate_ids_witness :
    (mission_meta_valid c4tmpl.mission = true ∧
     c4tmpl.steps.all prompt_step_valid = true ∧
     c4tmpl.audit_steps.all audit_step_valid = true ∧
     c4tmpl.steps.isEmpty = false ∧
     ¬ ((c4tmpl.steps.map PromptStep.id) ++
         (c4tmpl.audit_steps.map AuditStep.id)).Nodup) ∧
    load_mission_template_file c4tmpl = .ok c4tmpl :=
  ⟨⟨by decide, by decide, by decide, by decide, by decide⟩,
   loader_ignores_duplicate_ids c4tmpl (by decide) (by decide) (by decide)
     (by decide) (by decide)⟩

/-- C5 counterexample: a snapshot whose only uncompleted step is the
currently issued one ("issued-but-not-completed") makes `plan_next` return
`Terminal`, not `Blocked`. -/
theorem issued_only_step_yields_terminal_cex :
    (plan_next c5snap c5tmpl fixture_policy [] none).kind = "terminal" ∧
    c5snap.completed_steps.contains "s1" = false ∧
    c5snap.issued_step_id = some "s1" ∧
    c5tmpl.steps.map PromptStep.id = ["s1"] ∧
    c5tmpl.audit_steps = [] := by
  decide

/-- C5 amended: with no blocked reason, no drift check, and no pending
decisions, when DAG resolution finds no eligible step `plan_next` returns the
exact `Blocked` message iff some uncompleted step other than the currently
issued one remains in `steps ∪ audit_steps`, and returns `Terminal` iff no
such step remains (a step that is issued-but-not-completed does not count). -/
theorem no_eligible_step_routing (snapshot : MissionRunSnapshot)
    (template : MissionTemplate) (policy : MissionPolicySnapshot)
    (ac : List (String × String))
    (hb : snapshot.blocked_reason = none)
    (hp : snapshot.pending_decisions = [])
    (hr : resolve_next_unified_step template snapshot = none) :
    (((plan_next snapshot template policy ac none).kind = "blocked" ∧
      (plan_next snapshot template policy ac none).reason =
        some no_eligible_steps_message) ↔
      ((∃ s ∈ template.steps, s.id ∉ snapshot.completed_steps ∧
          some s.id ≠ snapshot.issued_step_id) ∨
       (∃ a ∈ template.audit_steps, a.id ∉ snapshot.completed_steps ∧
          some a.id ≠ snapshot.issued_step_id))) ∧
    ((plan_next snapshot template policy ac none).kind = "terminal" ↔
      ¬ ((∃ s ∈ template.steps, s.id ∉ snapshot.completed_steps ∧
            some s.id ≠ snapshot.issued_step_id) ∨
         (∃ a ∈ template.audit_steps, a.id ∉ snapshot.completed_steps ∧
            some a.id ≠ snapshot.issued_step_id))) := by
  have hrem : has_remaining_steps template snapshot = true ↔
      ((∃ s ∈ template.steps, s.id ∉ snapshot.completed_steps ∧
          some s.id ≠ snapshot.issued_step_id) ∨
       (∃ a ∈ template.audit_steps, a.id ∉ snapshot.completed_steps ∧
          some a.id ≠ snapshot.issued_step_id)) := by
    simp [has_remaining_steps, step_remains, List.any_eq_true]
  cases hcase : has_remaining_steps template snapshot with
  | true =>
    rw [← hrem]
    simp [plan_next, truthy, hb, hp, min_pending, hr, hcase]
  | false =>
    rw [← hrem]
    simp [plan_next, truthy, hb, hp, min_pending, hr, hcase]

/-- C5 amended witness: the issued-only fixture resolves to no step and
routes to `Terminal`. -/
theorem no_eligible_step_routing_witness :
    (c5snap.blocked_reason = none ∧ c5snap.pending_decisions = [] ∧
     resolve_next_unified_step c5tmpl c5snap = none) ∧
    ((plan_next c5snap c5tmpl fixture_policy [] none).kind = "terminal" ↔
      ¬ ((∃ s ∈ c5tmpl.steps, s.id ∉ c5snap.completed_steps ∧
            some s.id ≠ c5snap.issued_step_id) ∨
         (∃ a ∈ c5tmpl.audit_steps, a.id ∉ c5snap.completed_steps ∧
            some a.id ≠ c5snap.issued_step_id))) :=
  ⟨⟨by decide, by decide, by decide⟩,
   (no_eligible_step_routing c5snap c5tmpl fixture_policy [] (by decide)
     (by decide) (by decide)).2⟩

/-- C6: the planner is a function of its arguments: equal inputs (with no
live template path) give decisions with byte-identical canonical
serialization. -/
theorem planner_deterministic_serialization
    (s1 s2 : MissionRunSnapshot) (t1 t2 : MissionTemplate)
    (p1 p2 : MissionPolicySnapshot) (a1 a2 : List (String × String))
    (hs : s1 = s2) (ht : t1 = t2) (hp : p1 = p2) (ha : a1 = a2) :
    serialize_decision (plan_next s1 t1 p1 a1 none) =
      serialize_decision (plan_next s2 t2 p2 a2 none) := by
  subst hs; subst ht; subst hp; subst ha; rfl

/-- C6 witness: two invocations at the audit fixture serialize identically. -/
theorem planner_deterministic_serialization_witness :
    (c1snap = c1snap ∧ c1tmpl = c1tmpl ∧ fixture_policy = fixture_policy ∧
      ([] : List (String × String)) = []) ∧
    serialize_decision (plan_next c1snap c1tmpl fixture_policy [] none) =
      serialize_decision (plan_next c1snap c1tmpl fixture_policy [] none) :=
  ⟨⟨rfl, rfl, rfl, rfl⟩,
   planner_deterministic_serialization c1snap c1snap c1tmpl c1tmpl
     fixture_policy fixture_policy [] [] rfl rfl rfl rfl⟩

/-- C8: answering a decision id that is not pending fails with the
not-found error, and the persisted snapshot is exactly the prior one. -/
theorem unknown_decision_id_rejected (snapshot : MissionRunSnapshot)
    (decision_id answer : String) (actor : ActorIdentity) (now : String)
    (h : dictContains snapshot.pending_decisions decision_id = false) :
    provide_decision_answer snapshot decision_id answer actor now =
      .error (decision_not_found_message decision_id snapshot.run_id) ∧
    persisted_after_answer snapshot decision_id answer actor now = snapshot := by
  constructor
  · simp [provide_decision_answer, h]
  · simp [persisted_after_answer, provide_decision_answer, h]

/-- C8 witness: the fresh fixture run has no pending decisions, so answering
`audit:a1` fails and persists nothing. -/
theorem unknown_decision_id_rejected_witness :
    dictContains c1snap.pending_decisions "audit:a1" = false ∧
    (provide_decision_answer c1snap "audit:a1" "approve" fixture_actor "t1" =
      .error (decision_not_found_message "audit:a1" c1snap.run_id) ∧
     persisted_after_answer c1snap "audit:a1" "approve" fixture_actor "t1" =
       c1snap) :=
  ⟨by decide,
   unknown_decision_id_rejected c1snap "audit:a1" "approve" fixture_actor "t1"
     (by decide)⟩

theorem discover_go_keys (items : List WalkItem) :
    ∀ seen, (discover_go seen items).1.map DiscoveredMission.key =
      items.filterMap walk_ok_key := by
  induction items with
  | nil => intro seen; simp [discover_go]
  | cons item rest ih =>
    intro seen
    cases hload : item.load_result with
    | error e => simp [discover_go, hload, walk_ok_key, ih]
    | ok key => simp [discover_go, hload, walk_ok_key, ih]

theorem discover_go_filter (items : List WalkItem) :
    ∀ (seen : List String) (k : String) (m : DiscoveredMission)
      (rest : List DiscoveredMission),
      (discover_go seen items).1.filter (fun x => x.key == k) = m :: rest →
      m.selected = !(seen.contains k) ∧ ∀ x ∈ rest, x.selected = false := by
  induction items with
  | nil =>
    intro seen k m rest h
    simp [discover_go] at h
  | cons item rest' ih =>
    intro seen k m rest h
    cases hload : item.load_result with
    | error e =>
      simp only [discover_go, hload] at h
      exact ih seen k m rest h
    | ok key =>
      simp only [discover_go, hload] at h
      by_cases hkey : key = k
      · subst hkey
        rw [List.filter_cons_of_pos (by simp)] at h
        injection h with h1 h2
        subst h1
        refine ⟨rfl, ?_⟩
        cases rest with
        | nil =>
          intro x hx
          simp at hx
        | cons m2 r2 =>
          obtain ⟨hm2, hr2⟩ := ih _ key m2 r2 h2
          intro x hx
          rcases List.mem_cons.mp hx with rfl | hx2
          · rw [hm2]
            by_cases hsk : seen.contains key <;> simp [hsk] <;> split <;>
              simp_all
          · exact hr2 x hx2
      · rw [List.filter_cons_of_neg (by simp [hkey])] at h
        obtain ⟨hm, hrest⟩ := ih _ k m rest h
        refine ⟨?_, hrest⟩
        rw [hm]
        by_cases hsk : seen.contains key <;> simp [hsk] <;> split <;>
          simp_all [List.mem_cons, Ne.symm hkey]

/-- C9: discovery walks the tiers in order; for each mission key the first
successfully loaded occurrence is `selected`, every later occurrence of the
same key is kept in the list with `selected = false`, and every successful
load appears (the mission keys in output order are exactly the loaded keys in
walk order). -/
theorem discovery_first_occurrence_selected (items : List WalkItem) (k : String) :
    ((discover_missions_with_warnings items).missions.map DiscoveredMission.key =
      items.filterMap walk_ok_key) ∧
    (∀ m rest,
      (discover_missions_with_warnings items).missions.filter
        (fun x => x.key == k) = m :: rest →
      m.selected = true ∧ ∀ x ∈ rest, x.selected = false) := by
  constructor
  · exact discover_go_keys items []
  · intro m rest h
    have hres := discover_go_filter items [] k m rest
      (by simpa [discover_missions_with_warnings] using h)
    simpa using hres

/-- C9 witness: on a four-item walk with the key `software-dev` appearing
twice, the first occurrence is selected and the shadow is kept unselected. -/
theorem discovery_first_occurrence_selected_witness :
    ((discover_missions_with_warnings c9items).missions.filter
      (fun x => x.key == "software-dev") = [c9first, c9shadow]) ∧
    c9first.selected = true ∧ ∀ x ∈ [c9shadow], x.selected = false :=
  ⟨by decide,
   ((discovery_first_occurrence_selected c9items "software-dev").2 c9first
     [c9shadow] (by decide)).1,
   ((discovery_first_occurrence_selected c9items "software-dev").2 c9first
     [c9shadow] (by decide)).2⟩

/-- C10: a reachable blocked snapshot (blocked reason set by a failed /
blocked transition, hence no issued step) is absorbing: `next_step` returns
`Blocked` with the identical reason and persists the snapshot unchanged, and
`provide_decision_answer` never alters `blocked_reason`. -/
theorem blocked_state_absorbing (snapshot : MissionRunSnapshot)
    (template : MissionTemplate) (agent_id result : String)
    (po : Option MissionPolicySnapshot) (ac : List (String × String))
    (live : Option String) (now did ans : String) (actor : ActorIdentity)
    (r : String)
    (hb : snapshot.blocked_reason = some r) (hr : r ≠ "")
    (hi : snapshot.issued_step_id = none) :
    (next_step snapshot template agent_id result po ac live now).decision.kind
      = "blocked" ∧
    (next_step snapshot template agent_id result po ac live now).decision.reason
      = some r ∧
    (next_step snapshot template agent_id result po ac live now).snapshot
      = snapshot ∧
    (persisted_after_answer snapshot did ans actor now).blocked_reason
      = some r := by
  have htr : truthy (some r) = true := by simp [truthy, hr]
  refine ⟨?_, ?_, ?_, ?_⟩
  · simp [next_step, apply_issued_transition, hi, plan_next, hb, htr]
  · simp [next_step, apply_issued_transition, hi, plan_next, hb, htr]
  · simp only [next_step, apply_issued_transition, hi, plan_next, hb, htr]
    simp
    rw [← hb, ← hi]
  · unfold persisted_after_answer provide_decision_answer
    split_ifs <;> simp [hb]

/-- C10 witness at a concrete blocked snapshot. -/
theorem blocked_state_absorbing_witness :
    (c10snap.blocked_reason =
      some "Previous step \x27S1\x27 failed; manual intervention required." ∧
     "Previous step \x27S1\x27 failed; manual intervention required." ≠ "" ∧
     c10snap.issued_step_id = none) ∧
    ((next_step c10snap c3tmpl "codex" "success" none [] none
        "t").decision.kind = "blocked" ∧
     (next_step c10snap c3tmpl "codex" "success" none [] none
        "t").decision.reason =
       some "Previous step \x27S1\x27 failed; manual intervention required." ∧
     (next_step c10snap c3tmpl "codex" "success" none [] none "t").snapshot =
       c10snap ∧
     (persisted_after_answer c10snap "audit:a1" "approve" fixture_actor
        "t1").blocked_reason =
       some "Previous step \x27S1\x27 failed; manual intervention required.") :=
  ⟨⟨by decide, by decide, by decide⟩,
   blocked_state_absorbing c10snap c3tmpl "codex" "success" none [] none "t"
     "audit:a1" "approve" fixture_actor
     "Previous step \x27S1\x27 failed; manual intervention required."
     (by decide) (by decide) (by decide)⟩

/-- C7 witness: the all-valid composite-8 fixture with one hard trigger. -/
theorem evaluate_significance_invariants_witness :
    ((c1dims.map Prod.fst).Nodup ∧ validate_dimension_scores c1dims = true ∧
     (∀ cid ∈ ["production_data_destructive"],
        dictContains HARD_TRIGGER_REGISTRY cid = true)) ∧
    ∃ sc, evaluate_significance c1dims ["production_data_destructive"] none =
        .ok sc ∧
      sc.composite = (sc.dimensions.map SignificanceDimension.score).sum ∧
      (sc.effective_band.name = "high" ↔
        (sc.band.name = "high" ∨ sc.hard_trigger_classes ≠ [])) :=
  ⟨⟨by decide, by decide, by decide⟩,
   evaluate_significance_invariants c1dims ["production_data_destructive"] none
     (by decide) (by decide) (by decide) (fun c h => nomatch h)⟩
